import Mathlib

/-!
# Cinetron media engine: queue consumer, transcode invoker and worker loop

A shallow embedding of `packages/media-engine`:

* `internal/queue/redis.go`      : `RedisQueue`, `NewRedisClient`, `RedisQueue.Pop`
* `internal/transcoder/ffmpeg.go`: `FFmpegTranscoder.Transcode`
* `internal/worker/worker.go`    : `Worker.Start`, `Worker.processJob`

The Go code talks to three collaborators that are not part of the repository:
the Redis server (through the go-redis client), the operating system (through
`os/exec`) and the clock/logger.  Every call to one of them is recorded as an
`Event` in a trace, and what the collaborator answers is an explicit argument
of the embedded function.  Go strings are Lean `String`s, a Go `error` is an
`Option String` holding the text of `Error()`, and `nil` is `none`.
-/

namespace Cinetron

/-! ## Effects -/

/-- The program and argument vector handed to `exec.CommandContext`. -/
structure Cmd where
  name : String
  args : List String
deriving DecidableEq, Repr

/-- One observable effect of the media engine, in program order. -/
inductive Event where
  /-- A line written by `log.Println` / `log.Printf`. -/
  | log (line : String)
  /-- A call of `time.Sleep`, in seconds. -/
  | sleep (seconds : Nat)
  /-- A call of `w.queue.Pop(ctx)` by the worker loop. -/
  | pop
  /-- The call `XGroupCreateMkStream(ctx, stream, group, start)`. -/
  | xGroupCreateMkStream (stream group start : String)
  /-- The call `XReadGroup(ctx, args)`; `block` is in seconds. -/
  | xReadGroup (group consumer : String) (streams : List String) (count block : Nat)
  /-- The call `XAck(ctx, stream, group, id)`. -/
  | xAck (stream group id : String)
  /-- The external process started by `cmd.CombinedOutput()`. -/
  | exec (cmd : Cmd)
deriving DecidableEq, Repr

/-- Recognises an acknowledgment. -/
def Event.isAck : Event → Bool
  | .xAck _ _ _ => true
  | _ => false

/-- Recognises the start of an external process. -/
def Event.isExec : Event → Bool
  | .exec _ => true
  | _ => false

/-- Recognises a call of `Pop` by the worker loop. -/
def Event.isPop : Event → Bool
  | .pop => true
  | _ => false

/-! ## Queue client (`internal/queue/redis.go`) -/

/-- A value of a stream entry's field map (`map[string]interface{}`): only a
string passes the type assertion `.(string)`. -/
inductive Value where
  | str (s : String)
  | int (n : Int)
  | null
deriving DecidableEq, Repr

/-- Mirror of `redis.XMessage`: the entry handle `ID` and the payload. -/
structure XMessage where
  ID : String
  Values : List (String × Value)
deriving DecidableEq, Repr

/-- Mirror of `redis.XStream`. -/
structure XStream where
  Stream : String
  Messages : List XMessage
deriving DecidableEq, Repr

/-- Mirror of `redis.Options` as far as `NewRedisClient` fills it. -/
structure RedisOptions where
  Addr : String
  Password : String
  DB : Int
deriving DecidableEq, Repr

/-- Mirror of `type RedisQueue struct`. -/
structure RedisQueue where
  client : RedisOptions
  stream : String
  group : String
deriving DecidableEq, Repr

/-- Embedding of `NewRedisClient` (redis.go 19-31). -/
def NewRedisClient (addr password : String) (db : Int) : RedisQueue :=
  { client := { Addr := addr, Password := password, DB := db }
    stream := "transcode_jobs"
    group := "media_engine_group" }

/-- What the Redis client answers during one call of `Pop`: the error of
`XGroupCreateMkStream(...).Err()` and the pair returned by
`XReadGroup(...).Result()`.  The answer of `XAck` is discarded by the code
(redis.go 56) and therefore not represented. -/
structure RedisReply where
  groupErr : Option String
  streams : List XStream
  readErr : Option String
deriving DecidableEq, Repr

/-- The text of `redis.Nil`, the error with which the go-redis client ends a
blocking `XReadGroup` whose `Block` interval expired without an entry.  The
worker relies on this (worker.go 33: "Redis timeout or error"). -/
def redisNil : String := "redis: nil"

/-- The text the Redis server answers to `XGROUP CREATE` when the group is
already there, as compared against in redis.go 37. -/
def busyGroup : String := "BUSYGROUP Consumer Group name already exists"

/-- The result of one call of `Pop`: the effects it performed and the Go
return pair `(string, error)`. -/
structure PopResult where
  events : List Event
  jobID : String
  err : Option String
deriving DecidableEq, Repr

/-- The map index `msg.Values[key]`: the first binding of `key`, if any. -/
def lookupValue (key : String) : List (String × Value) → Option Value
  | [] => none
  | (k, v) :: rest => if k = key then some v else lookupValue key rest

/-- Embedding of `RedisQueue.Pop` (redis.go 34-66).

* 36-39: group creation is issued; the guard on a non-BUSYGROUP error has an
  empty body, so both branches continue with the read;
* 41-51: the blocking read; an error is returned with the empty string;
* 53-63: the first message of the first stream is acknowledged and its
  `jobID` returned if it is a string;
* 65: otherwise the empty string and `nil`. -/
def RedisQueue.Pop (q : RedisQueue) (r : RedisReply) : PopResult :=
  let create := Event.xGroupCreateMkStream q.stream q.group "$"
  let afterCreate : List Event :=
    match r.groupErr with
    | some e => if e ≠ busyGroup then [create] else [create]
    | none => [create]
  let read := Event.xReadGroup q.group "worker-1" [q.stream, ">"] 1 5
  match r.readErr with
  | some e => { events := afterCreate ++ [read], jobID := "", err := some e }
  | none =>
    match r.streams with
    | s :: _ =>
      match s.Messages with
      | msg :: _ =>
        let ack := Event.xAck q.stream q.group msg.ID
        match lookupValue "jobID" msg.Values with
        | some (Value.str val) =>
          { events := afterCreate ++ [read, ack], jobID := val, err := none }
        | _ => { events := afterCreate ++ [read, ack], jobID := "", err := none }
      | [] => { events := afterCreate ++ [read], jobID := "", err := none }
    | [] => { events := afterCreate ++ [read], jobID := "", err := none }

/-! ## Transcode invoker (`internal/transcoder/ffmpeg.go`) -/

/-- How the external process ended, as `os/exec` sees it. -/
inductive ProcExit where
  /-- The process ran and exited with this status. -/
  | exited (code : Nat)
  /-- The process could not be run or waited for (not found, killed, ...). -/
  | failed (cause : String)
deriving DecidableEq, Repr

/-- The error half of `cmd.CombinedOutput()`: `nil` exactly when the command
ran and exited with status zero; an `*exec.ExitError` prints as
`exit status n`. -/
def ProcExit.err : ProcExit → Option String
  | .exited 0 => none
  | .exited (n + 1) => some ("exit status " ++ toString (n + 1))
  | .failed cause => some cause

/-- The command built at ffmpeg.go 22-36. -/
def FFmpegTranscoder.command (inputPath outputPath : String) : Cmd :=
  { name := "ffmpeg"
    args :=
      [ "-i", inputPath,
        "-c:v", "libx264",
        "-preset", "veryfast",
        "-g", "48",
        "-sc_threshold", "0",
        "-hls_time", "4",
        "-hls_playlist_type", "vod",
        "-b:v", "1000k",
        "-maxrate", "1000k",
        "-bufsize", "2000k",
        "-b:a", "128k",
        "-hls_segment_filename", outputPath ++ "_%03d.ts",
        outputPath ++ ".m3u8" ] }

/-- Embedding of `FFmpegTranscoder.Transcode` (ffmpeg.go 19-45).  `run` is the
operating system: it maps the command to the pair `(output, err)` that
`cmd.CombinedOutput()` returns.  The result is the trace and the returned
`error`. -/
def FFmpegTranscoder.Transcode (inputPath outputPath : String)
    (run : Cmd → String × Option String) : List Event × Option String :=
  let cmd := FFmpegTranscoder.command inputPath outputPath
  match run cmd with
  | (output, some err) =>
    ([Event.exec cmd], some ("ffmpeg error: " ++ err ++ ", output: " ++ output))
  | (_, none) => ([Event.exec cmd], none)

/-- An operating system whose process prints `output` and ends as `x`. -/
def runWith (output : String) (x : ProcExit) : Cmd → String × Option String :=
  fun _ => (output, x.err)

/-! ## Worker loop (`internal/worker/worker.go`) -/

/-- Mirror of `transcoder.Transcoder`, the interface held by the worker. -/
abbrev Transcoder := String → String → (Cmd → String × Option String) → List Event × Option String

/-- Mirror of `type Worker struct`.  The queue is represented by the answers
its `Pop` gives (see `Tick`), the transcoder by its `Transcode` method. -/
structure Worker where
  transcoder : Transcoder

/-- Embedding of `NewWorker` (worker.go 17-22). -/
def NewWorker : Worker := { transcoder := FFmpegTranscoder.Transcode }

/-- Embedding of `Worker.processJob` (worker.go 48-54): two log lines around
a five second sleep; the call of `w.transcoder.Transcode` at line 51 is
commented out in the source. -/
def Worker.processJob (_w : Worker) (jobID : String) : List Event :=
  [ Event.log ("Transcoding started for " ++ jobID),
    Event.sleep 5,
    Event.log ("Transcoding completed for " ++ jobID) ]

/-- The `default:` branch of the `select` in `Worker.Start` (worker.go
31-43), given what `Pop` did and returned. -/
def Worker.iteration (w : Worker) (p : PopResult) : List Event :=
  Event.pop :: p.events ++
    (match p.err with
     | some _ => [Event.sleep 1]
     | none =>
       if p.jobID ≠ "" then
         Event.log ("Processing job: " ++ p.jobID) :: w.processJob p.jobID
       else [])

/-- What the environment presents to one pass of the `for` loop: whether
`ctx.Done()` is ready at the `select`, and what `Pop` does if it is called. -/
structure Tick where
  ctxDone : Bool
  pop : PopResult
deriving DecidableEq, Repr

/-- The `for { select { ... } }` of `Worker.Start` (worker.go 26-45) run
against a finite script of ticks.  The result is the trace and whether Start
has returned (`false`: the script ended with the loop still running). -/
def Worker.loop (w : Worker) : List Tick → List Event × Bool
  | [] => ([], false)
  | t :: ts =>
    if t.ctxDone then ([], true)
    else
      let rest := Worker.loop w ts
      (w.iteration t.pop ++ rest.1, rest.2)

/-- Embedding of `Worker.Start` (worker.go 24-46). -/
def Worker.Start (w : Worker) (script : List Tick) : List Event × Bool :=
  let run := w.loop script
  (Event.log "Worker started, waiting for jobs..." :: run.1, run.2)

/-- A tick of a worker whose queue is the Redis queue `q`: the context is not
done and the Redis client answers `r`. -/
def redisTick (q : RedisQueue) (r : RedisReply) : Tick :=
  { ctxDone := false, pop := q.Pop r }

/-- The queue built by `main` (main.go 21). -/
def mainQueue : RedisQueue := NewRedisClient "localhost:6379" "" 0

/-- A Redis answer delivering one entry with the given handle and payload,
group creation reporting that the group exists. -/
def delivered (id : String) (values : List (String × Value)) : RedisReply :=
  { groupErr := some busyGroup
    streams := [{ Stream := "transcode_jobs", Messages := [{ ID := id, Values := values }] }]
    readErr := none }

/-- The entry with handle `1-0` whose payload binds `jobID` to the given
string, delivered to the queue built by `main`, as one tick of the loop. -/
def firstDelivery (jobID : String) : Tick :=
  redisTick mainQueue (delivered "1-0" [("jobID", Value.str jobID)])

/-- The order "claim, execute, ack" for the entry with handle `id` carrying
job `jobID`, in the spec's words: whenever the trace acknowledges `id`, the
line that ends the processing of `jobID` has been written before. -/
def AckAfterCompletion (q : RedisQueue) (id jobID : String) (trace : List Event) : Prop :=
  ∀ pre post, trace = pre ++ Event.xAck q.stream q.group id :: post →
    Event.log ("Transcoding completed for " ++ jobID) ∈ pre

/-- The entry that `Pop` takes from a reply (redis.go 49-54): the message
`streams[0].Messages[0]`, when the read returned no error and both slices are
non-empty.  With `Count: 1` a reply carries at most this one entry. -/
def RedisReply.claimed (r : RedisReply) : Option XMessage :=
  match r.readErr with
  | some _ => none
  | none =>
    match r.streams with
    | s :: _ => s.Messages.head?
    | [] => none

/-- An operating system in which ffmpeg prints `Invalid data found` and exits
with status 1, whatever the command: every transcode attempt fails. -/
def invalidData : Cmd → String × Option String :=
  runWith "Invalid data found" (ProcExit.exited 1)

/-- One delivery of an entry as the bounded-retry property looks at it: the
error that the transcode attempt for the job returns at that delivery (`none`
when it succeeds) and the trace of the pass that claimed the entry. -/
structure Attempt where
  transcodeErr : Option String
  trace : List Event

/-- Bounded retry, in the spec's words, for the successive deliveries of one
entry whose acknowledgment is `ack` and whose dead-letter report is recognised
by `report`: if the maximum is at least one and the transcode attempt fails at
every delivery, then the delivery numbered `maxRedeliveries` acknowledges
once and reports once, and every other delivery neither acknowledges nor
reports.  Nothing is demanded of a job whose transcode succeeds. -/
def BoundedRetry (ack : Event) (report : Event → Bool) (maxRedeliveries : Nat)
    (attempts : List Attempt) : Prop :=
  1 ≤ maxRedeliveries →
  (∀ a ∈ attempts, a.transcodeErr ≠ none) →
  ∀ k, k < attempts.length →
    ((attempts.map Attempt.trace).getD k []).count ack =
        (if k + 1 = maxRedeliveries then 1 else 0) ∧
    ((attempts.map Attempt.trace).getD k []).countP report =
        (if k + 1 = maxRedeliveries then 1 else 0)

/-! ## Basic facts about the embedding -/

theorem Pop_readErr (q : RedisQueue) (g : Option String) (ss : List XStream) (e : String) :
    q.Pop { groupErr := g, streams := ss, readErr := some e } =
      { events := [Event.xGroupCreateMkStream q.stream q.group "$",
                   Event.xReadGroup q.group "worker-1" [q.stream, ">"] 1 5],
        jobID := "", err := some e } := by
  cases g <;> simp [RedisQueue.Pop]

theorem Pop_noStream (q : RedisQueue) (g : Option String) :
    q.Pop { groupErr := g, streams := [], readErr := none } =
      { events := [Event.xGroupCreateMkStream q.stream q.group "$",
                   Event.xReadGroup q.group "worker-1" [q.stream, ">"] 1 5],
        jobID := "", err := none } := by
  cases g <;> simp [RedisQueue.Pop]

theorem Pop_noMessage (q : RedisQueue) (g : Option String) (name : String)
    (ss : List XStream) :
    q.Pop { groupErr := g, streams := { Stream := name, Messages := [] } :: ss,
            readErr := none } =
      { events := [Event.xGroupCreateMkStream q.stream q.group "$",
                   Event.xReadGroup q.group "worker-1" [q.stream, ">"] 1 5],
        jobID := "", err := none } := by
  cases g <;> simp [RedisQueue.Pop]

theorem Pop_job (q : RedisQueue) (g : Option String) (name : String) (msg : XMessage)
    (ms : List XMessage) (ss : List XStream) (j : String)
    (hj : lookupValue "jobID" msg.Values = some (Value.str j)) :
    q.Pop { groupErr := g, streams := { Stream := name, Messages := msg :: ms } :: ss,
            readErr := none } =
      { events := [Event.xGroupCreateMkStream q.stream q.group "$",
                   Event.xReadGroup q.group "worker-1" [q.stream, ">"] 1 5,
                   Event.xAck q.stream q.group msg.ID],
        jobID := j, err := none } := by
  cases g <;> simp [RedisQueue.Pop, hj]

theorem Pop_malformed (q : RedisQueue) (g : Option String) (name : String) (msg : XMessage)
    (ms : List XMessage) (ss : List XStream)
    (hj : ∀ j, lookupValue "jobID" msg.Values ≠ some (Value.str j)) :
    q.Pop { groupErr := g, streams := { Stream := name, Messages := msg :: ms } :: ss,
            readErr := none } =
      { events := [Event.xGroupCreateMkStream q.stream q.group "$",
                   Event.xReadGroup q.group "worker-1" [q.stream, ">"] 1 5,
                   Event.xAck q.stream q.group msg.ID],
        jobID := "", err := none } := by
  cases hv : lookupValue "jobID" msg.Values with
  | none => cases g <;> simp [RedisQueue.Pop, hv]
  | some v =>
    cases v with
    | str j => exact absurd hv (hj j)
    | int n => cases g <;> simp [RedisQueue.Pop, hv]
    | null => cases g <;> simp [RedisQueue.Pop, hv]

theorem loop_cons_running (w : Worker) (t : Tick) (ts : List Tick) (h : t.ctxDone = false) :
    w.loop (t :: ts) = (w.iteration t.pop ++ (w.loop ts).1, (w.loop ts).2) := by
  simp [Worker.loop, h]

theorem loop_cons_done (w : Worker) (t : Tick) (ts : List Tick) (h : t.ctxDone = true) :
    w.loop (t :: ts) = ([], true) := by
  simp [Worker.loop, h]

theorem loop_append_done (w : Worker) (pre : List Tick) (t : Tick) (post : List Tick)
    (hpre : ∀ x ∈ pre, x.ctxDone = false) (ht : t.ctxDone = true) :
    w.loop (pre ++ t :: post) = ((w.loop pre).1, true) := by
  induction pre with
  | nil => simp [Worker.loop, ht]
  | cons x xs ih =>
    have hx : x.ctxDone = false := hpre x (List.mem_cons_self x xs)
    have hxs : ∀ y ∈ xs, y.ctxDone = false := fun y hy => hpre y (List.mem_cons_of_mem x hy)
    rw [List.cons_append, loop_cons_running w x _ hx, loop_cons_running w x _ hx, ih hxs]

theorem loop_returned_iff (w : Worker) (ts : List Tick) :
    (w.loop ts).2 = true ↔ ∃ t ∈ ts, t.ctxDone = true := by
  induction ts with
  | nil => simp [Worker.loop]
  | cons x xs ih =>
    cases hx : x.ctxDone with
    | true => simp [loop_cons_done w x xs hx, hx]
    | false => simp [loop_cons_running w x xs hx, hx, ih]

theorem iteration_acks (w : Worker) (p : PopResult) :
    (w.iteration p).filter Event.isAck = p.events.filter Event.isAck := by
  unfold Worker.iteration
  cases p.err with
  | some e => simp [Event.isAck]
  | none =>
    by_cases hne : p.jobID = ""
    · simp [hne, Event.isAck]
    · simp [hne, Worker.processJob, Event.isAck]

theorem Pop_acks (q : RedisQueue) (r : RedisReply) :
    (q.Pop r).events.filter Event.isAck =
      (r.claimed.map fun m => Event.xAck q.stream q.group m.ID).toList := by
  obtain ⟨g, streams, readErr⟩ := r
  cases readErr with
  | some e => rw [Pop_readErr]; simp [RedisReply.claimed, Event.isAck]
  | none =>
    cases streams with
    | nil => rw [Pop_noStream]; simp [RedisReply.claimed, Event.isAck]
    | cons s ss =>
      obtain ⟨name, messages⟩ := s
      cases messages with
      | nil => rw [Pop_noMessage]; simp [RedisReply.claimed, Event.isAck]
      | cons msg ms =>
        by_cases hj : ∃ j, lookupValue "jobID" msg.Values = some (Value.str j)
        · obtain ⟨j, hj⟩ := hj
          rw [Pop_job q g name msg ms ss j hj]
          simp [RedisReply.claimed, Event.isAck]
        · have hj2 : ∀ j, lookupValue "jobID" msg.Values ≠ some (Value.str j) :=
            fun j h => hj ⟨j, h⟩
          rw [Pop_malformed q g name msg ms ss hj2]
          simp [RedisReply.claimed, Event.isAck]

theorem Pop_execs (q : RedisQueue) (r : RedisReply) :
    (q.Pop r).events.countP Event.isExec = 0 := by
  obtain ⟨g, streams, readErr⟩ := r
  cases readErr with
  | some e => rw [Pop_readErr]; simp [Event.isExec]
  | none =>
    cases streams with
    | nil => rw [Pop_noStream]; simp [Event.isExec]
    | cons s ss =>
      obtain ⟨name, messages⟩ := s
      cases messages with
      | nil => rw [Pop_noMessage]; simp [Event.isExec]
      | cons msg ms =>
        by_cases hj : ∃ j, lookupValue "jobID" msg.Values = some (Value.str j)
        · obtain ⟨j, hj⟩ := hj
          rw [Pop_job q g name msg ms ss j hj]
          simp [Event.isExec]
        · have hj2 : ∀ j, lookupValue "jobID" msg.Values ≠ some (Value.str j) :=
            fun j h => hj ⟨j, h⟩
          rw [Pop_malformed q g name msg ms ss hj2]
          simp [Event.isExec]

theorem iteration_execs (w : Worker) (p : PopResult) :
    (w.iteration p).countP Event.isExec = p.events.countP Event.isExec := by
  unfold Worker.iteration
  cases p.err with
  | some e => simp [Event.isExec, List.countP_cons, List.countP_append]
  | none =>
    by_cases hne : p.jobID = ""
    · simp [hne, Event.isExec, List.countP_cons]
    · simp [hne, Worker.processJob, Event.isExec, List.countP_cons, List.countP_append]

/-- The spec-side property `BoundedRetry` holds of a conforming history (three
failed attempts, acknowledgment and report at the third) and of a job that
succeeds and is acknowledged at once. -/
theorem BoundedRetry_conforming :
    BoundedRetry (Event.xAck "s" "g" "1-0") (fun e => decide (e = Event.log "dead-letter: bad")) 3
      [{ transcodeErr := some "exit status 1", trace := [] },
       { transcodeErr := some "exit status 1", trace := [] },
       { transcodeErr := some "exit status 1",
         trace := [Event.xAck "s" "g" "1-0", Event.log "dead-letter: bad"] }] ∧
    BoundedRetry (Event.xAck "s" "g" "1-0") (fun e => decide (e = Event.log "dead-letter: bad")) 3
      [{ transcodeErr := none, trace := [Event.xAck "s" "g" "1-0"] }] := by
  constructor
  · intro _ _ k hk
    have hk3 : k < 3 := hk
    interval_cases k <;> decide
  · intro _ hall
    exact absurd rfl (hall { transcodeErr := none, trace := [Event.xAck "s" "g" "1-0"] }
      (List.mem_singleton.mpr rfl))

/-! ## C1: order of claim, acknowledgment and execution -/

/-- C1 (as stated, refuted): in the run that claims the entry `1-0` carrying
job `abc123`, the acknowledgment of `1-0` is in the trace before the line that
ends the processing of `abc123`, so the order "claim, execute, ack" fails. -/
theorem c1_ack_precedes_execution :
    ¬ AckAfterCompletion mainQueue "1-0" "abc123"
        (NewWorker.Start [firstDelivery "abc123"]).1 := by
  intro h
  have hmem := h
    [Event.log "Worker started, waiting for jobs...", Event.pop,
     Event.xGroupCreateMkStream "transcode_jobs" "media_engine_group" "$",
     Event.xReadGroup "media_engine_group" "worker-1" ["transcode_jobs", ">"] 1 5]
    [Event.log "Processing job: abc123", Event.log "Transcoding started for abc123",
     Event.sleep 5, Event.log "Transcoding completed for abc123"]
    (by decide)
  revert hmem
  decide

/-- C1 (amended): whenever the read delivers an entry whose `jobID` is a
non-empty string, the pass of the worker loop over it performs, in this
order, the claim (group creation and read), the acknowledgment of the entry's
handle inside `Pop`, and only then the processing of the job; the loop then
goes on with the next pass. -/
theorem c1_claim_ack_then_execute (w : Worker) (q : RedisQueue) (g : Option String)
    (name : String) (msg : XMessage) (ms : List XMessage) (ss : List XStream)
    (j : String) (ts : List Tick)
    (hj : lookupValue "jobID" msg.Values = some (Value.str j)) (hne : j ≠ "") :
    w.loop (redisTick q { groupErr := g,
                          streams := { Stream := name, Messages := msg :: ms } :: ss,
                          readErr := none } :: ts) =
      ([Event.pop,
        Event.xGroupCreateMkStream q.stream q.group "$",
        Event.xReadGroup q.group "worker-1" [q.stream, ">"] 1 5,
        Event.xAck q.stream q.group msg.ID,
        Event.log ("Processing job: " ++ j),
        Event.log ("Transcoding started for " ++ j),
        Event.sleep 5,
        Event.log ("Transcoding completed for " ++ j)] ++ (w.loop ts).1,
       (w.loop ts).2) := by
  rw [loop_cons_running w _ ts rfl]
  simp [redisTick, Pop_job q g name msg ms ss j hj, Worker.iteration, Worker.processJob, hne]

/-- Witness of `c1_claim_ack_then_execute` at the entry `1-0` carrying job
`abc123`. -/
theorem c1_claim_ack_then_execute_witness :
    NewWorker.loop [firstDelivery "abc123"] =
      ([Event.pop,
        Event.xGroupCreateMkStream "transcode_jobs" "media_engine_group" "$",
        Event.xReadGroup "media_engine_group" "worker-1" ["transcode_jobs", ">"] 1 5,
        Event.xAck "transcode_jobs" "media_engine_group" "1-0",
        Event.log "Processing job: abc123",
        Event.log "Transcoding started for abc123",
        Event.sleep 5,
        Event.log "Transcoding completed for abc123"], false) :=
  c1_claim_ack_then_execute NewWorker mainQueue (some busyGroup) "transcode_jobs"
    { ID := "1-0", Values := [("jobID", Value.str "abc123")] } [] [] "abc123" []
    (by decide) (by decide)

/-! ## C2: what the loop does with a claimed job -/

/-- C2 (as stated, refuted): for the job `abc123` returned by `Pop` without
error, the pass of the worker loop starts no external process, so the number
of `Transcode` calls is not one. -/
theorem c2_no_transcode_call :
    ¬ ((NewWorker.iteration { events := [], jobID := "abc123", err := none }).countP
        Event.isExec = 1) := by
  decide

/-- C2 (amended): for every result of `Pop` with a non-empty `jobID` and no
error, the pass of the worker loop logs the job and runs `processJob` exactly
once for it before the next claim; `processJob` writes a start line, sleeps
five seconds and writes a completion line, and starts no external process
(`Transcode` is not called). -/
theorem c2_process_job_once (w : Worker) (t : Tick) (ts : List Tick)
    (hctx : t.ctxDone = false) (herr : t.pop.err = none) (hne : t.pop.jobID ≠ "") :
    w.loop (t :: ts) =
      (Event.pop :: t.pop.events ++
        ([Event.log ("Processing job: " ++ t.pop.jobID)] ++ w.processJob t.pop.jobID) ++
        (w.loop ts).1, (w.loop ts).2) ∧
    w.processJob t.pop.jobID =
      [Event.log ("Transcoding started for " ++ t.pop.jobID), Event.sleep 5,
       Event.log ("Transcoding completed for " ++ t.pop.jobID)] ∧
    (w.processJob t.pop.jobID).countP Event.isExec = 0 := by
  refine ⟨?_, rfl, ?_⟩
  · rw [loop_cons_running w t ts hctx]
    simp [Worker.iteration, herr, hne]
  · simp [Worker.processJob, Event.isExec]

/-- Witness of `c2_process_job_once` at the job `abc123`. -/
theorem c2_process_job_once_witness :
    NewWorker.loop [{ ctxDone := false, pop := { events := [], jobID := "abc123", err := none } }] =
      (Event.pop :: [] ++
        ([Event.log ("Processing job: " ++ "abc123")] ++ NewWorker.processJob "abc123") ++
        (NewWorker.loop []).1, (NewWorker.loop []).2) ∧
    NewWorker.processJob "abc123" =
      [Event.log ("Transcoding started for " ++ "abc123"), Event.sleep 5,
       Event.log ("Transcoding completed for " ++ "abc123")] ∧
    (NewWorker.processJob "abc123").countP Event.isExec = 0 :=
  c2_process_job_once NewWorker
    { ctxDone := false, pop := { events := [], jobID := "abc123", err := none } } []
    rfl rfl (by decide)

/-! ## C3: retries and dead-lettering -/

/-- C3 (as stated, refuted): with `maxRedeliveries = 3`, take the entry `1-0`
carrying job `bad` whose transcode fails (ffmpeg exits with status 1 after
`Invalid data found`, so the worker's transcoder returns an error for it).
The pass that claims its first delivery acknowledges it, whatever is taken as
the dead-letter report, whereas bounded retry leaves the entry un-acknowledged
below the third failed attempt.  The pass never runs the transcoder, so the
failure goes unnoticed and the mock writes its completion line. -/
theorem c3_acked_on_first_failed_attempt :
    ¬ ∃ report : Event → Bool,
        BoundedRetry (Event.xAck "transcode_jobs" "media_engine_group" "1-0") report 3
          [{ transcodeErr := (NewWorker.transcoder "input.mp4" "output" invalidData).2,
             trace := NewWorker.iteration (firstDelivery "bad").pop }] := by
  rintro ⟨report, h⟩
  have hfail : ∀ a ∈ [({ transcodeErr := (NewWorker.transcoder "input.mp4" "output" invalidData).2,
                         trace := NewWorker.iteration (firstDelivery "bad").pop } : Attempt)],
      a.transcodeErr ≠ none := by
    intro a ha
    rw [List.mem_singleton.mp ha]
    decide
  have hcount := (h (by decide) hfail 0 (by decide)).1
  revert hcount
  decide

/-- C3 (amended): in every run of the worker loop over the Redis queue, for
every worker and transcoder, the acknowledgments in the trace are exactly one
per pass whose read delivered an entry, namely that of the first message of
the first stream of that pass, in the order of the passes; a pass whose read
failed or delivered nothing acknowledges nothing, and the run starts no
external process, so no transcode outcome and no redelivery maximum enters
the disposition. -/
theorem c3_acks_at_claim (w : Worker) (q : RedisQueue) (replies : List RedisReply) :
    (w.loop (replies.map (redisTick q))).1.filter Event.isAck =
      replies.filterMap
        (fun r => r.claimed.map fun m => Event.xAck q.stream q.group m.ID) ∧
    (w.loop (replies.map (redisTick q))).1.countP Event.isExec = 0 := by
  induction replies with
  | nil => simp [Worker.loop]
  | cons r rs ih =>
    rw [List.map_cons, loop_cons_running w (redisTick q r) _ rfl]
    constructor
    · show ((w.iteration (q.Pop r)) ++ _).filter Event.isAck = _
      rw [List.filter_append, iteration_acks, Pop_acks, ih.1, List.filterMap_cons]
      cases r.claimed <;> simp
    · show ((w.iteration (q.Pop r)) ++ _).countP Event.isExec = 0
      rw [List.countP_append, iteration_execs, Pop_execs, ih.2]

/-! ## C4: the error returned by the transcode invoker -/

/-- C4: `Transcode` returns a non-nil error exactly when running the process
reports one; for every cause `e` and captured output `o` the message is
`ffmpeg error: ` followed by `e`, `, output: ` and `o` unaltered; a process
that exits with status zero gives nil, and one that exits otherwise or cannot
be run gives an error. -/
theorem c4_transcode_error (inputPath outputPath : String)
    (run : Cmd → String × Option String) :
    ((FFmpegTranscoder.Transcode inputPath outputPath run).2 ≠ none ↔
      (run (FFmpegTranscoder.command inputPath outputPath)).2 ≠ none) ∧
    (∀ e o, run (FFmpegTranscoder.command inputPath outputPath) = (o, some e) →
      (FFmpegTranscoder.Transcode inputPath outputPath run).2 =
        some ("ffmpeg error: " ++ e ++ ", output: " ++ o)) ∧
    (∀ o, (FFmpegTranscoder.Transcode inputPath outputPath
        (runWith o (ProcExit.exited 0))).2 = none) ∧
    (∀ o x, (FFmpegTranscoder.Transcode inputPath outputPath (runWith o x)).2 ≠ none ↔
      x ≠ ProcExit.exited 0) := by
  refine ⟨?_, ?_, ?_, ?_⟩
  · rcases hr : run (FFmpegTranscoder.command inputPath outputPath) with ⟨o, _ | e⟩ <;>
      simp [FFmpegTranscoder.Transcode, hr]
  · intro e o hr
    simp [FFmpegTranscoder.Transcode, hr]
  · intro o
    simp [FFmpegTranscoder.Transcode, runWith, ProcExit.err]
  · intro o x
    cases x with
    | exited code =>
      cases code with
      | zero => simp [FFmpegTranscoder.Transcode, runWith, ProcExit.err]
      | succ n => simp [FFmpegTranscoder.Transcode, runWith, ProcExit.err]
    | failed cause => simp [FFmpegTranscoder.Transcode, runWith, ProcExit.err]

/-- Witness of `c4_transcode_error`: ffmpeg exits with status 1 after printing
`Invalid data found`. -/
theorem c4_transcode_error_witness :
    (FFmpegTranscoder.Transcode "input.mp4" "bad"
        (runWith "Invalid data found" (ProcExit.exited 1))).2 =
      some ("ffmpeg error: " ++ "exit status 1" ++ ", output: " ++ "Invalid data found") :=
  (c4_transcode_error "input.mp4" "bad"
      (runWith "Invalid data found" (ProcExit.exited 1))).2.1
    "exit status 1" "Invalid data found" (by decide)

/-! ## C5: the invocation built by the transcode invoker -/

/-- C5: for every pair of paths `Transcode` runs the program `ffmpeg` with
exactly the 25 listed arguments, whatever the process answers, so equal paths
give equal invocations; for the output path `abc123` the segment template is
`abc123_%03d.ts` and the playlist `abc123.m3u8`. -/
theorem c5_invocation (inputPath outputPath : String)
    (run run2 : Cmd → String × Option String) :
    (FFmpegTranscoder.Transcode inputPath outputPath run).1 =
      [Event.exec
        { name := "ffmpeg"
          args := ["-i", inputPath, "-c:v", "libx264", "-preset", "veryfast", "-g", "48",
                   "-sc_threshold", "0", "-hls_time", "4", "-hls_playlist_type", "vod",
                   "-b:v", "1000k", "-maxrate", "1000k", "-bufsize", "2000k",
                   "-b:a", "128k", "-hls_segment_filename", outputPath ++ "_%03d.ts",
                   outputPath ++ ".m3u8"] }] ∧
    (FFmpegTranscoder.command inputPath outputPath).args.length = 25 ∧
    (FFmpegTranscoder.Transcode inputPath outputPath run).1 =
      (FFmpegTranscoder.Transcode inputPath outputPath run2).1 ∧
    (FFmpegTranscoder.command inputPath "abc123").args.drop 22 =
      ["-hls_segment_filename", "abc123_%03d.ts", "abc123.m3u8"] := by
  have hev : ∀ f : Cmd → String × Option String,
      (FFmpegTranscoder.Transcode inputPath outputPath f).1 =
        [Event.exec (FFmpegTranscoder.command inputPath outputPath)] := by
    intro f
    rcases hf : f (FFmpegTranscoder.command inputPath outputPath) with ⟨o, _ | e⟩ <;>
      simp [FFmpegTranscoder.Transcode, hf]
  refine ⟨?_, rfl, ?_, ?_⟩
  · rw [hev run]; rfl
  · rw [hev run, hev run2]
  · have h1 : "abc123" ++ "_%03d.ts" = "abc123_%03d.ts" := by decide
    have h2 : "abc123" ++ ".m3u8" = "abc123.m3u8" := by decide
    simp [FFmpegTranscoder.command, h1, h2]

/-! ## C6: a read that ends by timeout -/

/-- C6 (as stated, refuted): when the blocking read ends by timeout, which the
client reports as `redis.Nil`, `Pop` does not return the empty string with a
nil error: the error is handed to the caller. -/
theorem c6_timeout_is_error :
    ¬ ((mainQueue.Pop { groupErr := some busyGroup, streams := [],
                        readErr := some redisNil }).jobID = "" ∧
       (mainQueue.Pop { groupErr := some busyGroup, streams := [],
                        readErr := some redisNil }).err = none) := by
  decide

/-- C6 (amended): whenever the blocking read ends with an error `e`, the
timeout `redis.Nil` included, `Pop` returns the empty string together with
that same error and acknowledges nothing; it returns the empty string with a
nil error when the read ends without error and without a stream. -/
theorem c6_read_error_returned (q : RedisQueue) (g : Option String) (ss : List XStream)
    (e : String) :
    q.Pop { groupErr := g, streams := ss, readErr := some e } =
      { events := [Event.xGroupCreateMkStream q.stream q.group "$",
                   Event.xReadGroup q.group "worker-1" [q.stream, ">"] 1 5],
        jobID := "", err := some e } ∧
    q.Pop { groupErr := g, streams := ss, readErr := some redisNil } =
      { events := [Event.xGroupCreateMkStream q.stream q.group "$",
                   Event.xReadGroup q.group "worker-1" [q.stream, ">"] 1 5],
        jobID := "", err := some redisNil } ∧
    q.Pop { groupErr := g, streams := [], readErr := none } =
      { events := [Event.xGroupCreateMkStream q.stream q.group "$",
                   Event.xReadGroup q.group "worker-1" [q.stream, ">"] 1 5],
        jobID := "", err := none } :=
  ⟨Pop_readErr q g ss e, Pop_readErr q g ss redisNil, Pop_noStream q g⟩

/-! ## C7: group bootstrap -/

/-- C7 (the code at the failing input): group creation fails with
`dial tcp 127.0.0.1:6379: i/o timeout`, which is not the BUSYGROUP answer,
and `Pop` nevertheless issues the read, claims and acknowledges the entry
`1-0` and returns its job with a nil error. -/
theorem c7_group_error_dropped :
    mainQueue.Pop
      { groupErr := some "dial tcp 127.0.0.1:6379: i/o timeout"
        streams := [{ Stream := "transcode_jobs",
                      Messages := [{ ID := "1-0", Values := [("jobID", Value.str "abc123")] }] }]
        readErr := none } =
      { events := [Event.xGroupCreateMkStream "transcode_jobs" "media_engine_group" "$",
                   Event.xReadGroup "media_engine_group" "worker-1" ["transcode_jobs", ">"] 1 5,
                   Event.xAck "transcode_jobs" "media_engine_group" "1-0"],
        jobID := "abc123", err := none } := by
  decide

/-! ## C8: a malformed entry -/

/-- C8: for every delivered entry whose payload has no `jobID` field or binds
it to something that is not a string, `Pop` acknowledges exactly that entry's
handle on the queue's stream and group and returns the empty string with a
nil error. -/
theorem c8_malformed_acked (q : RedisQueue) (g : Option String) (name : String)
    (msg : XMessage) (ms : List XMessage) (ss : List XStream)
    (hbad : lookupValue "jobID" msg.Values = none ∨
      ∃ v, lookupValue "jobID" msg.Values = some v ∧ ∀ j, v ≠ Value.str j) :
    q.Pop { groupErr := g, streams := { Stream := name, Messages := msg :: ms } :: ss,
            readErr := none } =
      { events := [Event.xGroupCreateMkStream q.stream q.group "$",
                   Event.xReadGroup q.group "worker-1" [q.stream, ">"] 1 5,
                   Event.xAck q.stream q.group msg.ID],
        jobID := "", err := none } ∧
    (q.Pop { groupErr := g, streams := { Stream := name, Messages := msg :: ms } :: ss,
             readErr := none }).events.filter Event.isAck =
      [Event.xAck q.stream q.group msg.ID] := by
  have hj : ∀ j, lookupValue "jobID" msg.Values ≠ some (Value.str j) := by
    intro j hjv
    rcases hbad with hnone | ⟨v, hv, hns⟩
    · rw [hnone] at hjv; cases hjv
    · rw [hv] at hjv
      exact hns j (Option.some.inj hjv)
  rw [Pop_malformed q g name msg ms ss hj]
  exact ⟨rfl, by simp [Event.isAck]⟩

/-- Witness of `c8_malformed_acked`: the entry `7-0` whose payload binds
`jobID` to the number 42. -/
theorem c8_malformed_acked_witness :
    mainQueue.Pop { groupErr := none,
                    streams := { Stream := "transcode_jobs",
                                 Messages := { ID := "7-0", Values := [("jobID", Value.int 42)] } :: [] } :: [],
                    readErr := none } =
      { events := [Event.xGroupCreateMkStream mainQueue.stream mainQueue.group "$",
                   Event.xReadGroup mainQueue.group "worker-1" [mainQueue.stream, ">"] 1 5,
                   Event.xAck mainQueue.stream mainQueue.group "7-0"],
        jobID := "", err := none } ∧
    (mainQueue.Pop { groupErr := none,
                     streams := { Stream := "transcode_jobs",
                                  Messages := { ID := "7-0", Values := [("jobID", Value.int 42)] } :: [] } :: [],
                     readErr := none }).events.filter Event.isAck =
      [Event.xAck mainQueue.stream mainQueue.group "7-0"] :=
  c8_malformed_acked mainQueue none "transcode_jobs"
    { ID := "7-0", Values := [("jobID", Value.int 42)] } [] []
    (Or.inr ⟨Value.int 42, by decide, by intro j h; cases h⟩)

/-! ## C9: an error from the queue -/

/-- C9: in every pass in which `Pop` returns a non-nil error, whatever string
comes with it, the worker processes no job: after `Pop` it only sleeps one
second and the loop goes on with the next pass; and `Start` returns exactly
when some pass finds the context done. -/
theorem c9_pop_error_not_fatal (w : Worker) (t : Tick) (ts : List Tick) (e : String)
    (hctx : t.ctxDone = false) (herr : t.pop.err = some e) :
    w.iteration t.pop = Event.pop :: t.pop.events ++ [Event.sleep 1] ∧
    w.Start (t :: ts) =
      (Event.log "Worker started, waiting for jobs..." ::
        (Event.pop :: t.pop.events ++ [Event.sleep 1]) ++ (w.loop ts).1, (w.loop ts).2) ∧
    ((w.Start (t :: ts)).2 = true ↔ ∃ x ∈ ts, x.ctxDone = true) ∧
    (∀ script, (w.Start script).2 = true ↔ ∃ x ∈ script, x.ctxDone = true) := by
  have hit : w.iteration t.pop = Event.pop :: t.pop.events ++ [Event.sleep 1] := by
    simp [Worker.iteration, herr]
  refine ⟨hit, ?_, ?_, ?_⟩
  · simp [Worker.Start, loop_cons_running w t ts hctx, hit]
  · simp [Worker.Start, loop_cons_running w t ts hctx, loop_returned_iff]
  · intro script
    simp [Worker.Start, loop_returned_iff]

/-- Witness of `c9_pop_error_not_fatal`: `Pop` fails with `connection refused`
while returning the string `abc123`, and the next pass finds the context
done. -/
theorem c9_pop_error_not_fatal_witness :
    NewWorker.Start
        [{ ctxDone := false, pop := { events := [], jobID := "abc123", err := some "connection refused" } },
         { ctxDone := true, pop := { events := [], jobID := "", err := none } }] =
      ([Event.log "Worker started, waiting for jobs...", Event.pop, Event.sleep 1], true) :=
  (c9_pop_error_not_fatal NewWorker
    { ctxDone := false, pop := { events := [], jobID := "abc123", err := some "connection refused" } }
    [{ ctxDone := true, pop := { events := [], jobID := "", err := none } }]
    "connection refused" rfl rfl).2.1

/-! ## C10: shutdown -/

/-- C10: once a pass finds the context done, `Start` returns and its trace is
the trace of the passes before that one: no `Pop` and no `processJob` of that
pass or of any later tick is issued; if the context is done at the first
pass the trace is the start line alone, with no call of `Pop`. -/
theorem c10_shutdown_stops_claims (w : Worker) (pre : List Tick) (t : Tick)
    (post : List Tick) (hpre : ∀ x ∈ pre, x.ctxDone = false) (ht : t.ctxDone = true) :
    w.Start (pre ++ t :: post) = ((w.Start pre).1, true) ∧
    w.Start (t :: post) = ([Event.log "Worker started, waiting for jobs..."], true) ∧
    (w.Start (t :: post)).1.countP Event.isPop = 0 := by
  refine ⟨?_, ?_, ?_⟩
  · simp [Worker.Start, loop_append_done w pre t post hpre ht]
  · simp [Worker.Start, loop_cons_done w t post ht]
  · simp [Worker.Start, loop_cons_done w t post ht, Event.isPop]

/-- Witness of `c10_shutdown_stops_claims`: one job is processed, then the
context is done although a further entry is waiting. -/
theorem c10_shutdown_stops_claims_witness :
    NewWorker.Start ([firstDelivery "abc123"] ++
        { ctxDone := true, pop := (firstDelivery "next").pop } :: [firstDelivery "later"]) =
      ((NewWorker.Start [firstDelivery "abc123"]).1, true) ∧
    NewWorker.Start ({ ctxDone := true, pop := (firstDelivery "next").pop } ::
        [firstDelivery "later"]) =
      ([Event.log "Worker started, waiting for jobs..."], true) ∧
    (NewWorker.Start ({ ctxDone := true, pop := (firstDelivery "next").pop } ::
        [firstDelivery "later"])).1.countP Event.isPop = 0 :=
  c10_shutdown_stops_claims NewWorker [firstDelivery "abc123"]
    { ctxDone := true, pop := (firstDelivery "next").pop } [firstDelivery "later"]
    (by decide) rfl

end Cinetron
